import Mathlib

/-!
Verification of the video-generation scripts of TheAgencyIQ
(`src/stable-video-diffusion/generate_video.py` and
`src/stable-video-diffusion/generate_video_fallback.py`).

The Python code is shallowly embedded: pure string manipulation becomes
Lean functions on `String` / `List Char`, the environment-dependent parts
(presence of the `diffusers` stack, presence and behaviour of the `ffmpeg`
binary, filesystem health) become explicit record parameters, and the
scripts' control flow becomes total Lean functions over those records.
-/

/-! ## Python string primitives

`strLower` models `str.lower` (on the character level, via `Char.toLower`),
`containsSub` models the Python `in` operator on strings, and
`replaceFuel`/`pyReplace` model `str.replace(old, new)` for a non-empty
`old` (the scripts only ever call it with `'.mp4'`).  `replaceFuel` carries
a fuel argument so that the definition is structurally recursive and
reduces by `rfl` on concrete inputs; the fuel is always instantiated with
the length of the scanned string, which is sufficient.
-/

/-- Character-level model of Python `str.lower`. -/
def strLower (s : String) : String := String.mk (s.data.map Char.toLower)

/-- `isPrefixChars needle l` is true iff `needle` is a prefix of `l`. -/
def isPrefixChars : List Char → List Char → Bool
  | [], _ => true
  | _ :: _, [] => false
  | a :: as, b :: bs => a == b && isPrefixChars as bs

/-- `containsSub hay needle` models Python `needle in hay` on char lists. -/
def containsSub : List Char → List Char → Bool
  | [], needle => isPrefixChars needle []
  | c :: rest, needle => isPrefixChars needle (c :: rest) || containsSub rest needle

/-- `pyIn needle hay` models `needle in hay.lower()` as used by the
keyword checks in `generate_asmr_video`. -/
def pyIn (needle hay : String) : Bool :=
  containsSub (strLower hay).data needle.data

/-- Fuel-indexed scanner behind `pyReplace`; replaces every non-overlapping
occurrence of `old` (assumed non-empty) left to right, as Python
`str.replace` does. -/
def replaceFuel (old new : List Char) : Nat → List Char → List Char
  | _, [] => []
  | 0, c :: rest => c :: rest
  | fuel + 1, c :: rest =>
    if !old.isEmpty && isPrefixChars old (c :: rest) then
      new ++ replaceFuel old new fuel (List.drop (old.length - 1) rest)
    else
      c :: replaceFuel old new fuel rest

/-- Replace every occurrence of `old` in `s` by `new` (Python
`s.replace(old, new)` for non-empty `old`). -/
def pyReplaceChars (old new s : List Char) : List Char :=
  replaceFuel old new s.length s

/-- String-level wrapper of `pyReplaceChars`. -/
def pyReplace (s old new : String) : String :=
  String.mk (pyReplaceChars old.data new.data s.data)

/-! ## `generate_video.py` — prompt classifier and ffmpeg command

`generate_asmr_video(prompt, output_path, width, height, duration)` selects
one of four hard-coded ffmpeg invocations by an `if/elif` cascade of
case-insensitive keyword tests on the prompt, then runs it with
`subprocess.run(cmd, capture_output=True, text=True)` — with no `timeout`
argument.  The four branches are embedded as `ThemeClass` and the command
construction as `asmrCmd`; the `-filter_complex` graph text of each branch
is transcribed in `asmrFilterText` (apostrophes written as `\x27`).
-/

/-- The four branches of `generate_asmr_video`'s `if/elif` cascade
(`generate_video.py` lines 131–196). -/
inductive ThemeClass
  | glassSlice
  | transformation
  | productivity
  | default
deriving DecidableEq

/-- The prompt classification of `generate_asmr_video`: each keyword test is
`kw in prompt.lower()`, evaluated top to bottom, first match wins. -/
def classifyPrompt (prompt : String) : ThemeClass :=
  if pyIn "glass" prompt || pyIn "slice" prompt then ThemeClass.glassSlice
  else if pyIn "transformation" prompt then ThemeClass.transformation
  else if pyIn "productivity" prompt || pyIn "automation" prompt then ThemeClass.productivity
  else ThemeClass.default

/-- The `-filter_complex` argument of each branch (the Python `f'''…'''`
literals, including their leading/trailing newline and 16-space indents;
`{duration}` interpolations substituted). -/
def asmrFilterText (theme : ThemeClass) (duration : Nat) : String :=
  match theme with
  | ThemeClass.glassSlice =>
      "\n                [0:v][1:v]overlay=x=\x27if(gte(t,1), (W-w)/2+30*sin(2*PI*t), -w)\x27:y=\x27(H-h)/2\x27:shortest=1[bg1];\n                [bg1][2:v]overlay=x=\x27if(gte(t,3), (W-w)/2-40*cos(2*PI*t), W)\x27:y=\x27(H-h)/2+50\x27:shortest=1[bg2];\n                [bg2]drawtext=fontsize=24:fontcolor=white@0.8:x=(w-text_w)/2:y=h-80:text=\x27Fresh Apple Slicing - ASMR Experience\x27[final]\n                "
  | ThemeClass.transformation =>
      "\n                [0:v][1:v]overlay=x=\x27(W-w)/2\x27:y=\x27(H-h)/2-100+20*sin(2*PI*t)\x27:shortest=1[bg1];\n                [bg1][2:v]overlay=x=\x27(W-w)/2\x27:y=\x27(H-h)/2+50+15*cos(2*PI*t)\x27:shortest=1[bg2];\n                [bg2]drawtext=fontsize=32:fontcolor=white:x=(w-text_w)/2:y=(h-text_h)/2:text=\x27Business Transformation\x27:enable=\x27between(t,0," ++ toString duration ++ ")\x27[final]\n                "
  | ThemeClass.productivity =>
      "\n                [0:v][1:v]overlay=x=\x27100+200*t/" ++ toString duration ++ "\x27:y=\x27(H-h)/2+30*sin(4*PI*t)\x27:shortest=1[bg1];\n                [bg1]drawtext=fontsize=28:fontcolor=white:x=(w-text_w)/2:y=50:text=\x27Automated Productivity Solutions\x27[final]\n                "
  | ThemeClass.default =>
      "\n                [0:v][1:v]overlay=x=\x27(W-w)/2+50*sin(2*PI*t)\x27:y=\x27(H-h)/2+30*cos(2*PI*t)\x27:shortest=1[bg1];\n                [bg1][2:v]overlay=x=\x27(W-w)/2-40*cos(2*PI*t)\x27:y=\x27(H-h)/2-20*sin(2*PI*t)\x27:shortest=1[bg2];\n                [bg2]drawtext=fontsize=26:fontcolor=white@0.9:x=(w-text_w)/2:y=h-60:text=\x27TheAgencyIQ - Smart Automation\x27[final]\n                "

/-- A lavfi colour source argument, `color=c=<hex>:size=<w>x<h>:duration=<d>`. -/
def lavfiColor (hex : String) (w h d : Nat) : String :=
  "color=c=" ++ hex ++ ":size=" ++ toString w ++ "x" ++ toString h ++ ":duration=" ++ toString d

/-- The full argv of the ffmpeg command each branch of
`generate_asmr_video` builds. -/
def asmrCmd (theme : ThemeClass) (width height duration : Nat) (output : String) : List String :=
  let tail := ["-map", "[final]", "-c:v", "libx264", "-pix_fmt", "yuv420p",
               "-t", toString duration, output]
  match theme with
  | ThemeClass.glassSlice =>
      ["ffmpeg", "-y",
       "-f", "lavfi", "-i", lavfiColor "#2a4d3a" width height duration,
       "-f", "lavfi", "-i", "color=c=#8fbc8f:size=200:200:duration=" ++ toString duration,
       "-f", "lavfi", "-i", "color=c=#ff6b6b:size=150:150:duration=" ++ toString duration,
       "-filter_complex", asmrFilterText ThemeClass.glassSlice duration] ++ tail
  | ThemeClass.transformation =>
      ["ffmpeg", "-y",
       "-f", "lavfi", "-i", lavfiColor "#1e3a8a" width height duration,
       "-f", "lavfi", "-i", "color=c=#3b82f6:size=300:100:duration=" ++ toString duration,
       "-f", "lavfi", "-i", "color=c=#60a5fa:size=200:100:duration=" ++ toString duration,
       "-filter_complex", asmrFilterText ThemeClass.transformation duration] ++ tail
  | ThemeClass.productivity =>
      ["ffmpeg", "-y",
       "-f", "lavfi", "-i", lavfiColor "#065f46" width height duration,
       "-f", "lavfi", "-i", "color=c=#10b981:size=100:100:duration=" ++ toString duration,
       "-filter_complex", asmrFilterText ThemeClass.productivity duration] ++ tail
  | ThemeClass.default =>
      ["ffmpeg", "-y",
       "-f", "lavfi", "-i", lavfiColor "#374151" width height duration,
       "-f", "lavfi", "-i", "color=c=#6366f1:size=150:150:duration=" ++ toString duration,
       "-f", "lavfi", "-i", "color=c=#ec4899:size=100:100:duration=" ++ toString duration,
       "-filter_complex", asmrFilterText ThemeClass.default duration] ++ tail

/-- A call to Python's `subprocess.run`: the argv, whether output is
captured, and the `timeout` keyword argument (in seconds) if one is passed. -/
structure SubprocessRun where
  argv : List String
  captureOutput : Bool
  timeoutSecs : Option Nat
deriving DecidableEq

/-- The `subprocess.run` call issued by `generate_asmr_video`
(`generate_video.py` line 198): `subprocess.run(cmd, capture_output=True,
text=True)` — no `timeout` argument is passed. -/
def generate_asmr_video_run (prompt output : String) (width height duration : Nat) :
    SubprocessRun :=
  { argv := asmrCmd (classifyPrompt prompt) width height duration output,
    captureOutput := true,
    timeoutSecs := none }

/-! ## `generate_video.py` — `create_fallback_video` frames

`create_fallback_video(image, output_path, duration, fps)` writes
`duration * fps` frames; frame `frame_idx` applies
`cv2.getRotationMatrix2D(center, 0, scale)` with
`scale = 1.0 + 0.1 * np.sin(progress * 2 * np.pi)` and
`progress = frame_idx / total_frames`.  Floats are modelled as real
numbers, so the frame sequence is the list of (progress, rotation angle,
scale) triples below.
-/

/-- The affine warp applied to one frame: the rotation angle and scale
passed to `cv2.getRotationMatrix2D` plus the progress value they came
from. -/
@[ext]
structure WarpFrame where
  progress : ℝ
  rotationDeg : ℝ
  scale : ℝ

/-- The warp of frame `frameIdx` out of `totalFrames`
(`generate_video.py` lines 100–107). -/
noncomputable def warpFrameAt (totalFrames frameIdx : Nat) : WarpFrame :=
  let progress : ℝ := (frameIdx : ℝ) / (totalFrames : ℝ)
  { progress := progress,
    rotationDeg := 0,
    scale := 1 + (1 / 10 : ℝ) * Real.sin (progress * 2 * Real.pi) }

/-- The list of frames `create_fallback_video` writes:
`for frame_idx in range(total_frames)` with `total_frames = duration * fps`. -/
noncomputable def create_fallback_video_frames (duration fps : Nat) : List WarpFrame :=
  (List.range (duration * fps)).map (warpFrameAt (duration * fps))

/-! ## `generate_video.py` — `main`'s strategy cascade

`main` is a function of the run-time environment: whether
`check_dependencies()` succeeds, whether `generate_initial_image` returns
an image, whether `generate_video_from_image` returns frames, whether
`create_fallback_video` returns `True`, and whether and how the `ffmpeg`
subprocess of `generate_asmr_video` is present and exits 0.  The script's
observable outcome is the exit code, the strategy that succeeded, whether
any strategy wrote and completed the output file, and whether
`create_fallback_video` was invoked at all.
-/

/-- One run-time environment of `generate_video.py`'s `main`. -/
structure MainEnv where
  /-- `check_dependencies()`: `diffusers` and `transformers` import. -/
  depsOk : Bool
  /-- `generate_initial_image` returned an image (not `None`). -/
  initialImageOk : Bool
  /-- `generate_video_from_image` returned frames (not `None`). -/
  svdFramesOk : Bool
  /-- `create_fallback_video` returned `True`. -/
  fallbackVideoOk : Bool
  /-- The `ffmpeg` binary exists (else `subprocess.run` raises). -/
  ffmpegAvailable : Bool
  /-- `ffmpeg`'s exit code when it runs. -/
  ffmpegExitCode : Nat
deriving DecidableEq

/-- The generation strategies of `generate_video.py`, in attempt order. -/
inductive Strategy
  | neuralSvd
  | imageAnimation
  | asmrFfmpeg
deriving DecidableEq

/-- The observable outcome of one invocation of `main`. -/
structure MainResult where
  exitCode : Nat
  strategyUsed : Option Strategy
  /-- Some strategy wrote the output file and reported success. -/
  outputFileProduced : Bool
  /-- `create_fallback_video` was invoked. -/
  attemptedAnimation : Bool
deriving DecidableEq

/-- `generate_asmr_video` returns `True` iff the subprocess ran and exited 0
(`generate_video.py` lines 198–209; a raised `FileNotFoundError` is caught
and turned into `False`). -/
def asmrSucceeds (e : MainEnv) : Bool :=
  e.ffmpegAvailable && (e.ffmpegExitCode == 0)

/-- The `if not success:` tail of `main` (lines 252–261): try
`generate_asmr_video`, then exit 0 on success and 1 otherwise. -/
def runAsmr (e : MainEnv) (animTried : Bool) : MainResult :=
  if asmrSucceeds e then
    { exitCode := 0, strategyUsed := some Strategy.asmrFfmpeg,
      outputFileProduced := true, attemptedAnimation := animTried }
  else
    { exitCode := 1, strategyUsed := none,
      outputFileProduced := false, attemptedAnimation := animTried }

/-- The strategy cascade of `main` (`generate_video.py` lines 229–261).
In the SVD-success branch the script only prints and sets `success = True`;
the comment `# Save video frames (implementation would go here)` marks that
no bytes are written to the output path. -/
def runMain (e : MainEnv) : MainResult :=
  if e.depsOk then
    if e.initialImageOk then
      if e.svdFramesOk then
        { exitCode := 0, strategyUsed := some Strategy.neuralSvd,
          outputFileProduced := false, attemptedAnimation := false }
      else if e.fallbackVideoOk then
        { exitCode := 0, strategyUsed := some Strategy.imageAnimation,
          outputFileProduced := true, attemptedAnimation := true }
      else runAsmr e true
    else runAsmr e false
  else runAsmr e false

/-! ## `generate_video_fallback.py` — `create_mock_video` and `main`

`create_mock_video(output_path, duration)` first tries an ffmpeg `testsrc`
render (`subprocess.run(..., timeout=60)`); on `TimeoutExpired`,
`FileNotFoundError`, a non-zero ffmpeg exit (re-raised as an exception) or
any other exception it overwrites the output path with a literal minimal
MP4 byte string.  It then stats the output file, builds a metadata dict,
computes the metadata path with `output_path.replace('.mp4',
'_metadata.json')` and writes the dict as 2-space-indented JSON.  Any
exception escaping that body (a filesystem error: `mkdir`, `open`,
`getsize`, the writes) is caught and turned into `return False`; `main`
exits 0 iff it returned `True`.

The filesystem is a journal of writes, most recent first; `fsGet` reads
the current content of a path.
-/

/-- The outcome of the ffmpeg `testsrc` attempt inside `create_mock_video`. -/
inductive FfmpegOutcome
  | unavailable
  | timedOut
  | exited (code : Nat) (outputBytes : List Nat)
deriving DecidableEq

/-- Environment of one `create_mock_video` run: the ffmpeg attempt's fate
and whether the filesystem operations of the body succeed. -/
structure FallbackEnv where
  ffmpeg : FfmpegOutcome
  fsOk : Bool
deriving DecidableEq

/-- The metadata dict built at `generate_video_fallback.py` lines 50–58,
fields in insertion order. -/
structure MockMetadata where
  duration : Nat
  resolution : String
  aspectRatio : String
  fileSize : Nat
  generated : Bool
  fallback : Bool
  note : String
deriving DecidableEq

/-- The two ways `create_mock_video` produces the video artifact. -/
inductive MockStrategy
  | ffmpegTestsrc
  | minimalPlaceholder
deriving DecidableEq

/-- The literal bytes of
`b'\x00\x00\x00\x20ftypmp41\x00\x00\x00\x00mp41isom\x00\x00\x00\x08free'`
(line 47). -/
def minimalMp4Bytes : List Nat :=
  [0x00, 0x00, 0x00, 0x20,
   0x66, 0x74, 0x79, 0x70, 0x6d, 0x70, 0x34, 0x31,
   0x00, 0x00, 0x00, 0x00,
   0x6d, 0x70, 0x34, 0x31, 0x69, 0x73, 0x6f, 0x6d,
   0x00, 0x00, 0x00, 0x08,
   0x66, 0x72, 0x65, 0x65]

/-- A filesystem as a journal of writes, most recent first. -/
abbrev FS := List (String × List Nat)

/-- `open(p, 'w'/'wb')` followed by a full write: journal the new content. -/
def fsWrite (fs : FS) (p : String) (b : List Nat) : FS := (p, b) :: fs

/-- Current content of a path: the most recent write to it. -/
def fsGet : FS → String → Option (List Nat)
  | [], _ => none
  | (q, b) :: rest, p => if q == p then some b else fsGet rest p

/-- `os.path.getsize`: byte length of the current content (0 if absent). -/
def fsSize (fs : FS) (p : String) : Nat := ((fsGet fs p).getD []).length

/-- Bytes of a string (our metadata values are ASCII). -/
def strBytes (s : String) : List Nat := s.data.map Char.toNat

/-- JSON spelling of a Python bool. -/
def jsonBool (b : Bool) : String := cond b "true" "false"

/-- The exact text `json.dump(metadata, f, indent=2)` produces for the
metadata dict (2-space indentation, keys in insertion order; the string
values used by the script need no JSON escaping). -/
def jsonOfMetadata (m : MockMetadata) : String :=
  "\x7b\n  \"duration\": " ++ toString m.duration ++
  ",\n  \"resolution\": \"" ++ m.resolution ++
  "\",\n  \"aspectRatio\": \"" ++ m.aspectRatio ++
  "\",\n  \"fileSize\": " ++ toString m.fileSize ++
  ",\n  \"generated\": " ++ jsonBool m.generated ++
  ",\n  \"fallback\": " ++ jsonBool m.fallback ++
  ",\n  \"note\": \"" ++ m.note ++ "\"\n\x7d"

/-- The hard-coded `note` value of the metadata dict. -/
def mockVideoNote : String := "Mock video generated due to missing dependencies"

/-- The content the video step leaves at the output path and which strategy
produced it: ffmpeg's bytes when it exited 0, else the minimal MP4 written
by the inner `except` handler (lines 35–47). -/
def videoStep : FfmpegOutcome → List Nat × MockStrategy
  | FfmpegOutcome.exited 0 bytes => (bytes, MockStrategy.ffmpegTestsrc)
  | _ => (minimalMp4Bytes, MockStrategy.minimalPlaceholder)

/-- The observable outcome of `create_mock_video`. -/
structure MockResult where
  /-- The Python return value. -/
  ok : Bool
  /-- The filesystem journal after the call. -/
  files : FS
  strategy : Option MockStrategy
  metadata : Option MockMetadata
  metadataPath : Option String
  /-- The artifact bytes present at the output path when the metadata's
  `fileSize` was computed. -/
  videoBytes : List Nat
deriving DecidableEq

/-- `create_mock_video(output_path, duration)`
(`generate_video_fallback.py` lines 13–70). -/
def create_mock_video (env : FallbackEnv) (output_path : String) (duration : Nat) :
    MockResult :=
  if env.fsOk then
    let step := videoStep env.ffmpeg
    let fs1 := fsWrite [] output_path step.1
    let m : MockMetadata :=
      { duration := duration, resolution := "1920x1080", aspectRatio := "16:9",
        fileSize := fsSize fs1 output_path, generated := true, fallback := true,
        note := mockVideoNote }
    let mpath := pyReplace output_path ".mp4" "_metadata.json"
    let fs2 := fsWrite fs1 mpath (strBytes (jsonOfMetadata m))
    { ok := true, files := fs2, strategy := some step.2, metadata := some m,
      metadataPath := some mpath, videoBytes := step.1 }
  else
    { ok := false, files := [], strategy := none, metadata := none,
      metadataPath := none, videoBytes := [] }

/-- `main` of the fallback script (lines 72–89): parse and print the
prompt, call `create_mock_video(args.output, args.duration)`, exit 0 iff it
returned `True`.  The prompt is never passed on. -/
def fallbackMainRun (env : FallbackEnv) (_prompt output : String) (duration : Nat) :
    MockResult × Nat :=
  let r := create_mock_video env output duration
  (r, if r.ok then 0 else 1)

/-- The process exit code of the fallback script. -/
def fallbackMain (env : FallbackEnv) (prompt output : String) (duration : Nat) : Nat :=
  (fallbackMainRun env prompt output duration).2

/-- The ffmpeg argv built at `generate_video_fallback.py` lines 24–33. -/
def mockFfmpegCmd (output_path : String) (duration : Nat) : List String :=
  ["ffmpeg", "-y",
   "-f", "lavfi",
   "-i", "testsrc=size=1920x1080:duration=" ++ toString duration ++ ":rate=30",
   "-c:v", "libx264",
   "-pix_fmt", "yuv420p",
   "-preset", "ultrafast",
   "-crf", "28",
   output_path]

/-- The `subprocess.run` call of `create_mock_video` (line 35):
`subprocess.run(ffmpeg_cmd, capture_output=True, text=True, timeout=60)`. -/
def mockFfmpegRun (output_path : String) (duration : Nat) : SubprocessRun :=
  { argv := mockFfmpegCmd output_path duration,
    captureOutput := true,
    timeoutSecs := some 60 }

/-! ## The spec's ordered rule table

The spec describes the classifier as an ordered rule table evaluated
top-to-bottom with a case-insensitive containment test, first match wins.
`themeRuleTable`/`classifyByTable` follow the spec's words (keyword sets in
the source's branch order) and are compared with `classifyPrompt`, which is
the source's `if/elif` cascade.
-/

/-- One rule of the spec's table: a keyword set and the theme it selects. -/
structure ThemeRule where
  keywords : List String
  theme : ThemeClass
deriving DecidableEq

/-- The ordered rule table, in the source's branch order. -/
def themeRuleTable : List ThemeRule :=
  [ { keywords := ["glass", "slice"], theme := ThemeClass.glassSlice },
    { keywords := ["transformation"], theme := ThemeClass.transformation },
    { keywords := ["productivity", "automation"], theme := ThemeClass.productivity } ]

/-- A rule matches iff one of its keywords occurs (case-insensitively) in
the prompt. -/
def ruleMatches (prompt : String) (r : ThemeRule) : Bool :=
  r.keywords.any (fun k => pyIn k prompt)

/-- First-match-wins evaluation of the rule table, default theme when no
rule matches (the spec's description of the classifier). -/
def classifyByTable (prompt : String) : ThemeClass :=
  match themeRuleTable.find? (ruleMatches prompt) with
  | some r => r.theme
  | none => ThemeClass.default

/-! ## Helper lemmas -/

theorem strData_append (a b : String) : (a ++ b).data = a.data ++ b.data := rfl

theorem isPrefixChars_refl (l : List Char) : isPrefixChars l l = true := by
  induction l with
  | nil => rfl
  | cons a as ih => simp [isPrefixChars, ih]

theorem replaceFuel_nil (old new : List Char) (fuel : Nat) :
    replaceFuel old new fuel [] = [] := by
  cases fuel <;> rfl

theorem replaceFuel_cons (old new : List Char) (fuel : Nat) (c : Char) (rest : List Char) :
    replaceFuel old new (fuel + 1) (c :: rest) =
      if !old.isEmpty && isPrefixChars old (c :: rest) then
        new ++ replaceFuel old new fuel (List.drop (old.length - 1) rest)
      else
        c :: replaceFuel old new fuel rest := rfl

/-- If `old` does not occur in `s`, replacement is the identity. -/
theorem replaceFuel_no_occur (old new : List Char) :
    ∀ (s : List Char) (fuel : Nat), s.length ≤ fuel →
      containsSub s old = false → replaceFuel old new fuel s = s := by
  intro s
  induction s with
  | nil => intro fuel _ _; exact replaceFuel_nil old new fuel
  | cons c rest ih =>
    intro fuel hlen hocc
    cases fuel with
    | zero => simp at hlen
    | succ f =>
      have h1 : isPrefixChars old (c :: rest) = false := by
        unfold containsSub at hocc
        exact (Bool.or_eq_false_iff.mp hocc).1
      have h2 : containsSub rest old = false := by
        unfold containsSub at hocc
        exact (Bool.or_eq_false_iff.mp hocc).2
      rw [replaceFuel_cons, h1]
      have hlen2 : rest.length ≤ f := by
        simpa using Nat.succ_le_succ_iff.mp (by simpa using hlen)
      rw [ih f hlen2 h2]
      simp

/-- If the only occurrence of `old` in `stem ++ old` is the final one,
replacement rewrites exactly the suffix. -/
theorem replaceFuel_suffix (old new : List Char) (hold : old ≠ []) :
    ∀ (stem : List Char) (fuel : Nat), (stem ++ old).length ≤ fuel →
      (∀ p, p < stem.length → isPrefixChars old (List.drop p stem ++ old) = false) →
      replaceFuel old new fuel (stem ++ old) = stem ++ new := by
  intro stem
  induction stem with
  | nil =>
    intro fuel hlen _
    obtain ⟨o, os, rfl⟩ : ∃ o os, old = o :: os := by
      cases old with
      | nil => exact absurd rfl hold
      | cons o os => exact ⟨o, os, rfl⟩
    cases fuel with
    | zero => simp at hlen
    | succ f =>
      have hpre : isPrefixChars (o :: os) (o :: os) = true := isPrefixChars_refl _
      rw [List.nil_append, replaceFuel_cons, hpre]
      simp [List.drop_length, replaceFuel_nil]
  | cons c s ih =>
    intro fuel hlen hocc
    have h0 : isPrefixChars old ((c :: s) ++ old) = false := by
      have := hocc 0 (by simp)
      simpa using this
    cases fuel with
    | zero => simp [List.length_append] at hlen
    | succ f =>
      have h0c : isPrefixChars old (c :: (s ++ old)) = false := by
        simpa [List.cons_append] using h0
      have hlen2 : (s ++ old).length ≤ f := by
        have : (c :: (s ++ old)).length ≤ f + 1 := by simpa [List.cons_append] using hlen
        simpa using Nat.succ_le_succ_iff.mp (by simpa using this)
      have hocc2 : ∀ p, p < s.length → isPrefixChars old (List.drop p s ++ old) = false := by
        intro p hp
        have := hocc (p + 1) (by simpa using Nat.succ_lt_succ hp)
        simpa [List.drop_succ_cons] using this
      have : replaceFuel old new (f + 1) (c :: (s ++ old)) = c :: (s ++ new) := by
        rw [replaceFuel_cons, h0c]
        simp [ih f hlen2 hocc2]
      simpa [List.cons_append] using this

theorem pyReplace_no_occur (s old new : String)
    (h : containsSub s.data old.data = false) : pyReplace s old new = s := by
  unfold pyReplace pyReplaceChars
  rw [replaceFuel_no_occur old.data new.data s.data s.data.length le_rfl h]

theorem pyReplace_suffix (stem old new : String) (hold : old.data ≠ [])
    (hocc : ∀ p, p < stem.data.length →
      isPrefixChars old.data (List.drop p stem.data ++ old.data) = false) :
    pyReplace (stem ++ old) old new = stem ++ new := by
  unfold pyReplace pyReplaceChars
  rw [strData_append]
  rw [replaceFuel_suffix old.data new.data hold stem.data
        (stem.data ++ old.data).length le_rfl hocc]
  rfl

theorem classify_eq_table (p : String) : classifyPrompt p = classifyByTable p := by
  unfold classifyPrompt classifyByTable themeRuleTable ruleMatches
  cases h1 : pyIn "glass" p <;> cases h2 : pyIn "slice" p <;>
    cases h3 : pyIn "transformation" p <;> cases h4 : pyIn "productivity" p <;>
      cases h5 : pyIn "automation" p <;>
        simp [List.find?, List.any, h1, h2, h3, h4, h5]

/-- Reading back the older of two journalled writes: the path's current
content is the newer write when the paths collide, the older one
otherwise; either way it is one of the two. -/
theorem fsGet_write_write_self (p1 p2 : String) (b1 b2 : List Nat)
    (h1 : b1 ≠ []) (h2 : b2 ≠ []) :
    ∃ c, fsGet (fsWrite (fsWrite [] p2 b2) p1 b1) p2 = some c ∧ c ≠ [] := by
  cases hp : (p1 == p2) with
  | true => exact ⟨b1, by simp [fsWrite, fsGet, hp], h1⟩
  | false => exact ⟨b2, by simp [fsWrite, fsGet, hp], h2⟩

theorem data_append_ne_nil (a b : String) (h : a.data ≠ []) : (a ++ b).data ≠ [] := by
  rw [strData_append]
  intro hc
  exact h (List.append_eq_nil.mp hc).1

theorem jsonOfMetadata_ne_nil (m : MockMetadata) : (jsonOfMetadata m).data ≠ [] := by
  unfold jsonOfMetadata
  repeat apply data_append_ne_nil
  decide

theorem strBytes_ne_nil (s : String) (h : s.data ≠ []) : strBytes s ≠ [] := by
  unfold strBytes
  intro hc
  exact h (List.map_eq_nil_iff.mp hc)

theorem minimalMp4Bytes_ne_nil : minimalMp4Bytes ≠ [] := by decide

/-- Whenever ffmpeg did not exit 0, the video step falls back to the
minimal placeholder bytes. -/
theorem videoStep_placeholder (ff : FfmpegOutcome)
    (h : ∀ b, ff ≠ FfmpegOutcome.exited 0 b) :
    videoStep ff = (minimalMp4Bytes, MockStrategy.minimalPlaceholder) := by
  cases ff with
  | unavailable => rfl
  | timedOut => rfl
  | exited c b =>
    cases c with
    | zero => exact absurd rfl (h b)
    | succ n => rfl

/-- Evaluation of `create_mock_video` on a healthy filesystem. -/
theorem create_mock_video_fsOk (ff : FfmpegOutcome) (out : String) (d : Nat) :
    create_mock_video ⟨ff, true⟩ out d =
      { ok := true,
        files := fsWrite (fsWrite [] out (videoStep ff).1)
          (pyReplace out ".mp4" "_metadata.json")
          (strBytes (jsonOfMetadata
            { duration := d, resolution := "1920x1080", aspectRatio := "16:9",
              fileSize := fsSize (fsWrite [] out (videoStep ff).1) out,
              generated := true, fallback := true, note := mockVideoNote })),
        strategy := some (videoStep ff).2,
        metadata := some
          { duration := d, resolution := "1920x1080", aspectRatio := "16:9",
            fileSize := fsSize (fsWrite [] out (videoStep ff).1) out,
            generated := true, fallback := true, note := mockVideoNote },
        metadataPath := some (pyReplace out ".mp4" "_metadata.json"),
        videoBytes := (videoStep ff).1 } := rfl

/-- On a failing filesystem `create_mock_video` returns `False`. -/
theorem create_mock_video_fsBad (ff : FfmpegOutcome) (out : String) (d : Nat) :
    create_mock_video ⟨ff, false⟩ out d =
      { ok := false, files := [], strategy := none, metadata := none,
        metadataPath := none, videoBytes := [] } := rfl

/-- The size recorded by `os.path.getsize` right after the video write is
the byte length of what was written. -/
theorem fsSize_after_write (out : String) (b : List Nat) :
    fsSize (fsWrite [] out b) out = b.length := by
  simp [fsSize, fsWrite, fsGet]

/-- `runAsmr` reports the animation attempt it was handed, in both of its
branches. -/
theorem runAsmr_attemptedAnimation (e : MainEnv) (t : Bool) :
    (runAsmr e t).attemptedAnimation = t := by
  unfold runAsmr
  split <;> rfl

/-! ## Claims -/

/-- C3: the prompt classifier of `generate_asmr_video` evaluates an ordered
rule table top-to-bottom under a case-insensitive substring-containment
test, and the first matching rule alone determines the selected theme: for
every prompt, the `if/elif` cascade agrees with first-match evaluation of
the ordered table, and whenever rule `i` matches and no earlier rule does,
the result is exactly rule `i`'s theme (no merging). -/
theorem asmr_classifier_first_match_wins :
    (∀ p, classifyPrompt p = classifyByTable p) ∧
    (∀ (p : String) (i : Fin themeRuleTable.length),
      ruleMatches p (themeRuleTable.get i) = true →
      (∀ j : Fin themeRuleTable.length, (j : Nat) < (i : Nat) →
        ruleMatches p (themeRuleTable.get j) = false) →
      classifyPrompt p = (themeRuleTable.get i).theme) := by
  constructor
  · exact classify_eq_table
  · intro p i hi hj
    rw [classify_eq_table]
    fin_cases i
    · have h0 := hi
      simp only [themeRuleTable, List.get] at h0
      simp [classifyByTable, themeRuleTable, List.find?, h0]
    · have h1 := hi
      have h0 := hj ⟨0, by decide⟩ (by decide)
      simp only [themeRuleTable, List.get] at h0 h1
      simp [classifyByTable, themeRuleTable, List.find?, h0, h1]
    · have h2 := hi
      have h0 := hj ⟨0, by decide⟩ (by decide)
      have h1 := hj ⟨1, by decide⟩ (by decide)
      simp only [themeRuleTable, List.get] at h0 h1 h2
      simp [classifyByTable, themeRuleTable, List.find?, h0, h1, h2]

/-- Witness for C3: the prompt `"glass automation"` matches both the first
rule (`glass`) and the third rule (`automation`); the earlier rule wins. -/
theorem asmr_classifier_first_match_wins_witness :
    classifyPrompt "glass automation" = ThemeClass.glassSlice :=
  asmr_classifier_first_match_wins.2 "glass automation" ⟨0, by decide⟩ (by decide)
    (fun _ hj => absurd hj (Nat.not_lt_zero _))

/-- C7: classification is deterministic and case-insensitive: repeated
calls agree, and two prompts with the same lower-casing are classified
identically and produce the identical ffmpeg invocation. -/
theorem classifier_deterministic_case_insensitive :
    (∀ p, classifyPrompt p = classifyPrompt p) ∧
    (∀ p q, strLower p = strLower q →
      classifyPrompt p = classifyPrompt q ∧
      ∀ out w h d, generate_asmr_video_run p out w h d = generate_asmr_video_run q out w h d) := by
  refine ⟨fun _ => rfl, fun p q hpq => ?_⟩
  have hin : ∀ k : String, pyIn k p = pyIn k q := by
    intro k
    unfold pyIn
    rw [hpq]
  have hcl : classifyPrompt p = classifyPrompt q := by
    unfold classifyPrompt
    rw [hin "glass", hin "slice", hin "transformation", hin "productivity", hin "automation"]
  refine ⟨hcl, fun out w h d => ?_⟩
  unfold generate_asmr_video_run
  rw [hcl]

/-- Witness for C7: `"Forest Walk"` and `"forest walk"` classify
identically. -/
theorem classifier_deterministic_case_insensitive_witness :
    classifyPrompt "Forest Walk" = classifyPrompt "forest walk" :=
  (classifier_deterministic_case_insensitive.2 "Forest Walk" "forest walk" (by decide)).1

/-- C8: in `generate_video.py`, when the dependency check, the initial
image generation and the SVD frame generation all succeed, `main` exits 0
via the `neuralSvd` strategy without any strategy having written the
output file (the frame-saving step is only a comment), so exit code 0 does
not imply the output file exists. -/
theorem svd_success_exits_zero_without_output (e : MainEnv)
    (h1 : e.depsOk = true) (h2 : e.initialImageOk = true) (h3 : e.svdFramesOk = true) :
    (runMain e).exitCode = 0 ∧
    (runMain e).strategyUsed = some Strategy.neuralSvd ∧
    (runMain e).outputFileProduced = false := by
  simp [runMain, h1, h2, h3]

/-- Witness for C8 at a concrete environment. -/
theorem svd_success_exits_zero_without_output_witness :
    (runMain (MainEnv.mk true true true false false 1)).exitCode = 0 ∧
    (runMain (MainEnv.mk true true true false false 1)).strategyUsed = some Strategy.neuralSvd ∧
    (runMain (MainEnv.mk true true true false false 1)).outputFileProduced = false :=
  svd_success_exits_zero_without_output (MainEnv.mk true true true false false 1) rfl rfl rfl

/-- C1 counterexample: in `generate_video.py` itself, with the neural
inference stack absent (`check_dependencies()` false) and the media
encoder absent (`ffmpeg` missing), the chain does not reach any
placeholder state: no strategy succeeds and the process exits 1, so the
claim as stated fails on this script. -/
theorem main_no_placeholder_on_missing_capabilities :
    (runMain (MainEnv.mk false false false false false 0)).strategyUsed = none ∧
    (runMain (MainEnv.mk false false false false false 0)).exitCode = 1 :=
  ⟨rfl, rfl⟩

/-- C1 (amended): in the fallback script `generate_video_fallback.py`,
whenever ffmpeg is absent, times out or fails (every richer strategy
fails) and the filesystem is writable, `create_mock_video` terminates in
the minimal-placeholder state and still succeeds: it returns `True`
(process exit 0), records `fallback = true` in the metadata, and leaves a
non-empty file at the requested output path. -/
theorem fallback_placeholder_always_succeeds (env : FallbackEnv) (prompt out : String)
    (d : Nat) (henc : ∀ b, env.ffmpeg ≠ FfmpegOutcome.exited 0 b)
    (hfs : env.fsOk = true) :
    (create_mock_video env out d).ok = true ∧
    (create_mock_video env out d).strategy = some MockStrategy.minimalPlaceholder ∧
    (create_mock_video env out d).videoBytes = minimalMp4Bytes ∧
    minimalMp4Bytes ≠ [] ∧
    (∃ content, fsGet (create_mock_video env out d).files out = some content ∧
      content ≠ []) ∧
    (∀ m, (create_mock_video env out d).metadata = some m → m.fallback = true) ∧
    fallbackMain env prompt out d = 0 := by
  obtain ⟨ff, fs⟩ := env
  cases fs with
  | false => simp at hfs
  | true =>
    have hstep := videoStep_placeholder ff (fun b => henc b)
    rw [create_mock_video_fsOk, hstep]
    refine ⟨rfl, rfl, rfl, minimalMp4Bytes_ne_nil, ?_, ?_, ?_⟩
    · exact fsGet_write_write_self _ _ _ _
        (strBytes_ne_nil _ (jsonOfMetadata_ne_nil _)) minimalMp4Bytes_ne_nil
    · intro m hm
      have := Option.some.inj hm
      rw [← this]
    · simp [fallbackMain, fallbackMainRun, create_mock_video_fsOk]

/-- Witness for C1 (amended) at a concrete environment: ffmpeg absent,
filesystem healthy. -/
theorem fallback_placeholder_always_succeeds_witness :
    (create_mock_video ⟨FfmpegOutcome.unavailable, true⟩ "out.mp4" 30).strategy =
      some MockStrategy.minimalPlaceholder ∧
    fallbackMain ⟨FfmpegOutcome.unavailable, true⟩ "prompt" "out.mp4" 30 = 0 :=
  ⟨(fallback_placeholder_always_succeeds ⟨FfmpegOutcome.unavailable, true⟩ "prompt"
      "out.mp4" 30 (fun _ h => FfmpegOutcome.noConfusion h) rfl).2.1,
   (fallback_placeholder_always_succeeds ⟨FfmpegOutcome.unavailable, true⟩ "prompt"
      "out.mp4" 30 (fun _ h => FfmpegOutcome.noConfusion h) rfl).2.2.2.2.2.2⟩

/-- C2 counterexample: in `generate_video.py`, when the media encoder is
merely unavailable (no filesystem failure anywhere), strategy 3 fails and
the process exits 1 — a non-zero exit without any fatal filesystem-level
failure, contrary to the claim. -/
theorem main_nonzero_exit_on_strategy_failure :
    (runMain (MainEnv.mk false false false false false 1)).exitCode = 1 := rfl

/-- C2 (amended): in the fallback script, the exit code is 0 exactly when
the filesystem operations succeed — so every terminal success, including
the minimal placeholder, exits 0, and a non-zero exit happens only on a
filesystem-level failure.  In `generate_video.py`, however, the exit code
is 1 exactly when no strategy succeeded (there is no strategy 4, so a
strategy-3 failure does terminate the request with a non-zero exit). -/
theorem fallback_exit_zero_iff_fs_ok :
    (∀ (env : FallbackEnv) (p out : String) (d : Nat),
      fallbackMain env p out d = 0 ↔ env.fsOk = true) ∧
    (∀ e : MainEnv, (runMain e).exitCode = 1 ↔ (runMain e).strategyUsed = none) := by
  constructor
  · intro env p out d
    obtain ⟨ff, fs⟩ := env
    cases fs <;>
      simp [fallbackMain, fallbackMainRun, create_mock_video_fsOk, create_mock_video_fsBad]
  · intro e
    obtain ⟨da, ia, sv, fb, fa, fc⟩ := e
    by_cases h : fc = 0 <;>
      cases da <;> cases ia <;> cases sv <;> cases fb <;> cases fa <;>
        simp [runMain, runAsmr, asmrSucceeds, h]

/-- C4 counterexample: for the output path `"video.avi"` the computed
metadata path is the output path itself, not
`"video_metadata.json"` — the metadata record is not written beside the
video at `<output-without-extension>_metadata.json`. -/
theorem metadata_path_counterexample_non_mp4 :
    (create_mock_video ⟨FfmpegOutcome.unavailable, true⟩ "video.avi" 30).metadataPath =
      some "video.avi" ∧
    (create_mock_video ⟨FfmpegOutcome.unavailable, true⟩ "video.avi" 30).metadataPath ≠
      some "video_metadata.json" := by
  constructor
  · rfl
  · decide

/-- C4 (amended): after `create_mock_video` terminates, provided the
output path contains `'.mp4'` only as its final extension, the metadata
record (the 2-space-indented JSON text `jsonOfMetadata` models) is written
beside the video at `<output-without-extension>_metadata.json` — a path
distinct from the video's — its `fileSize` field equals the byte size the
artifact had when the metadata was built, and the artifact is still
present at the output path.  (`generate_video.py` itself writes no
metadata at all; this holds for the fallback script.) -/
theorem metadata_beside_video_when_mp4_suffix (env : FallbackEnv) (stem : String)
    (d : Nat) (hfs : env.fsOk = true)
    (hocc : ∀ p, p < stem.data.length →
      isPrefixChars (".mp4" : String).data
        (List.drop p stem.data ++ (".mp4" : String).data) = false) :
    (create_mock_video env (stem ++ ".mp4") d).metadataPath =
      some (stem ++ "_metadata.json") ∧
    (stem ++ "_metadata.json") ≠ (stem ++ ".mp4") ∧
    (∀ m, (create_mock_video env (stem ++ ".mp4") d).metadata = some m →
      m.fileSize = (create_mock_video env (stem ++ ".mp4") d).videoBytes.length ∧
      fsGet (create_mock_video env (stem ++ ".mp4") d).files (stem ++ "_metadata.json") =
        some (strBytes (jsonOfMetadata m)) ∧
      fsGet (create_mock_video env (stem ++ ".mp4") d).files (stem ++ ".mp4") =
        some (create_mock_video env (stem ++ ".mp4") d).videoBytes) := by
  obtain ⟨ff, fs⟩ := env
  cases fs with
  | false => simp at hfs
  | true =>
    have hpath : pyReplace (stem ++ ".mp4") ".mp4" "_metadata.json" =
        stem ++ "_metadata.json" :=
      pyReplace_suffix stem ".mp4" "_metadata.json" (by decide) hocc
    have hneq : (stem ++ "_metadata.json") ≠ (stem ++ ".mp4") := by
      intro hcon
      have h1 := congrArg String.length hcon
      rw [String.length_append, String.length_append] at h1
      exact absurd (Nat.add_left_cancel h1) (by decide)
    have hneqb : ((stem ++ "_metadata.json") == (stem ++ ".mp4")) = false := by
      exact beq_eq_false_iff_ne.mpr hneq
    rw [create_mock_video_fsOk, hpath]
    refine ⟨rfl, hneq, ?_⟩
    intro m hm
    have hm2 := Option.some.inj hm
    rw [← hm2]
    refine ⟨?_, ?_, ?_⟩
    · exact fsSize_after_write _ _
    · simp [fsWrite, fsGet]
    · simp [fsWrite, fsGet, hneqb]

/-- Witness for C4 (amended) at `stem = "video"`: the metadata lands at
`video_metadata.json`, beside `video.mp4`. -/
theorem metadata_beside_video_when_mp4_suffix_witness :
    (create_mock_video ⟨FfmpegOutcome.unavailable, true⟩ ("video" ++ ".mp4") 30).metadataPath =
      some ("video" ++ "_metadata.json") :=
  (metadata_beside_video_when_mp4_suffix ⟨FfmpegOutcome.unavailable, true⟩ "video" 30
    rfl (by decide)).1

/-- C9: for every output path that does not contain the substring
`'.mp4'`, the computed metadata path equals the output path itself
(`str.replace` is a no-op), so the metadata JSON is written over the
just-created video artifact, while the call still returns `True` and the
process exits 0. -/
theorem non_mp4_output_metadata_overwrites_video (env : FallbackEnv) (p out : String)
    (d : Nat) (h : containsSub out.data (".mp4" : String).data = false)
    (hfs : env.fsOk = true) :
    (create_mock_video env out d).metadataPath = some out ∧
    (∀ m, (create_mock_video env out d).metadata = some m →
      fsGet (create_mock_video env out d).files out = some (strBytes (jsonOfMetadata m))) ∧
    (create_mock_video env out d).ok = true ∧
    fallbackMain env p out d = 0 := by
  obtain ⟨ff, fs⟩ := env
  cases fs with
  | false => simp at hfs
  | true =>
    have hpath : pyReplace out ".mp4" "_metadata.json" = out :=
      pyReplace_no_occur out ".mp4" "_metadata.json" h
    rw [create_mock_video_fsOk, hpath]
    refine ⟨rfl, ?_, rfl, ?_⟩
    · intro m hm
      have hm2 := Option.some.inj hm
      rw [← hm2]
      simp [fsWrite, fsGet]
    · simp [fallbackMain, fallbackMainRun, create_mock_video_fsOk]

/-- Witness for C9: the output path `"clip.avi"` contains no `'.mp4'`;
the metadata path collapses onto it and the run still exits 0. -/
theorem non_mp4_output_metadata_overwrites_video_witness :
    (create_mock_video ⟨FfmpegOutcome.unavailable, true⟩ "clip.avi" 30).metadataPath =
      some "clip.avi" ∧
    fallbackMain ⟨FfmpegOutcome.unavailable, true⟩ "prompt" "clip.avi" 30 = 0 :=
  ⟨(non_mp4_output_metadata_overwrites_video ⟨FfmpegOutcome.unavailable, true⟩ "prompt"
      "clip.avi" 30 (by decide) rfl).1,
   (non_mp4_output_metadata_overwrites_video ⟨FfmpegOutcome.unavailable, true⟩ "prompt"
      "clip.avi" 30 (by decide) rfl).2.2.2⟩

/-- C5: `create_fallback_video` applies a deterministic time-varying
affine warp (rotation 0, sinusoidal zoom `1.0 + 0.1*sin(2*pi*progress)`
with `progress = i / (duration*fps)`) frame-by-frame, writing exactly
`duration * fps` frames, without further model inference (the frame list
is a pure function of `duration` and `fps`); and in `main` it is skipped
whenever no still image exists. -/
theorem fallback_animation_warp_frames :
    (∀ duration fps : Nat,
      (create_fallback_video_frames duration fps).length = duration * fps) ∧
    (∀ duration fps i : Nat, i < duration * fps →
      (create_fallback_video_frames duration fps).getD i (WarpFrame.mk 0 0 0) =
        { progress := (i : ℝ) / ((duration * fps : Nat) : ℝ),
          rotationDeg := 0,
          scale := 1 + (1 / 10 : ℝ) *
            Real.sin (2 * Real.pi * ((i : ℝ) / ((duration * fps : Nat) : ℝ))) }) ∧
    (∀ e : MainEnv, e.initialImageOk = false →
      (runMain e).attemptedAnimation = false) := by
  refine ⟨?_, ?_, ?_⟩
  · intro duration fps
    simp [create_fallback_video_frames]
  · intro duration fps i hi
    unfold create_fallback_video_frames
    rw [List.getD_eq_getElem?_getD, List.getElem?_map, List.getElem?_range hi]
    unfold warpFrameAt
    ext
    · rfl
    · rfl
    · show (1 : ℝ) + 1 / 10 * Real.sin ((i : ℝ) / ((duration * fps : Nat) : ℝ) * 2 * Real.pi) = _
      congr 2
      rw [mul_comm (2 * Real.pi), ← mul_assoc]
  · intro e he
    obtain ⟨da, ia, sv, fb, fa, fc⟩ := e
    simp only at he
    subst he
    cases da <;> simp [runMain, runAsmr_attemptedAnimation]

/-- Witness for C5 at concrete inputs: the frame count for a 1-second,
2-fps run, and the skipped animation when `generate_initial_image`
returned `None`. -/
theorem fallback_animation_warp_frames_witness :
    (create_fallback_video_frames 1 2).length = 1 * 2 ∧
    (runMain (MainEnv.mk true false false false false 0)).attemptedAnimation = false :=
  ⟨fallback_animation_warp_frames.1 1 2,
   fallback_animation_warp_frames.2.2 (MainEnv.mk true false false false false 0) rfl⟩

/-- C6 counterexample: the `subprocess.run` call of `generate_asmr_video`
in `generate_video.py` passes no `timeout` argument, so not every
strategy attempt that delegates to an external subprocess has a bounded
wall-clock timeout. -/
theorem asmr_ffmpeg_call_has_no_timeout :
    (generate_asmr_video_run "glass apple" "output.mp4" 1920 1080 15).timeoutSecs = none :=
  rfl

/-- C6 (amended): in the fallback script the ffmpeg delegation is a
blocking call with a bounded 60-second timeout, and a timeout is treated
like a failure: the chain advances to the minimal placeholder and still
succeeds with exit code 0.  In `generate_video.py`, the ffmpeg call of
`generate_asmr_video` (and the inference calls) run with no timeout. -/
theorem mock_ffmpeg_timeout_bounded_and_advances :
    (∀ out d, (mockFfmpegRun out d).timeoutSecs = some 60) ∧
    (∀ (env : FallbackEnv) (p out : String) (d : Nat),
      env.ffmpeg = FfmpegOutcome.timedOut → env.fsOk = true →
      (create_mock_video env out d).strategy = some MockStrategy.minimalPlaceholder ∧
      (create_mock_video env out d).ok = true ∧
      fallbackMain env p out d = 0) := by
  refine ⟨fun out d => rfl, ?_⟩
  intro env p out d hff hfs
  obtain ⟨ff, fs⟩ := env
  simp only at hff hfs
  subst hff
  subst hfs
  rw [create_mock_video_fsOk]
  refine ⟨rfl, rfl, ?_⟩
  simp [fallbackMain, fallbackMainRun, create_mock_video_fsOk]

/-- Witness for C6 (amended): a timed-out ffmpeg on a healthy filesystem
ends in the minimal placeholder with exit 0, and the call carries
`timeout=60`. -/
theorem mock_ffmpeg_timeout_bounded_and_advances_witness :
    (mockFfmpegRun "v.mp4" 30).timeoutSecs = some 60 ∧
    (create_mock_video ⟨FfmpegOutcome.timedOut, true⟩ "v.mp4" 30).strategy =
      some MockStrategy.minimalPlaceholder :=
  ⟨mock_ffmpeg_timeout_bounded_and_advances.1 "v.mp4" 30,
   (mock_ffmpeg_timeout_bounded_and_advances.2 ⟨FfmpegOutcome.timedOut, true⟩ "p"
      "v.mp4" 30 rfl rfl).1⟩

/-- C10: the fallback script's behaviour is independent of the prompt: for
any two prompts with the same output path and duration, the run performs
identical steps (identical result record and exit code), and the metadata
hard-codes resolution `1920x1080` whatever the inputs. -/
theorem fallback_prompt_independence :
    (∀ (env : FallbackEnv) (p q out : String) (d : Nat),
      fallbackMainRun env p out d = fallbackMainRun env q out d) ∧
    (∀ (env : FallbackEnv) (out : String) (d : Nat) (m : MockMetadata),
      (create_mock_video env out d).metadata = some m →
      m.resolution = "1920x1080" ∧ m.duration = d) := by
  constructor
  · intro env p q out d
    rfl
  · intro env out d m hm
    obtain ⟨ff, fs⟩ := env
    cases fs with
    | false => simp [create_mock_video_fsBad] at hm
    | true =>
      rw [create_mock_video_fsOk] at hm
      have := Option.some.inj hm
      rw [← this]
      exact ⟨rfl, rfl⟩

/-- Witness for C10: two different prompts on the same environment give
the same run, and a concretely computed metadata record carries the
hard-coded resolution. -/
theorem fallback_prompt_independence_witness :
    fallbackMainRun ⟨FfmpegOutcome.unavailable, true⟩ "alpha" "o.mp4" 30 =
      fallbackMainRun ⟨FfmpegOutcome.unavailable, true⟩ "beta" "o.mp4" 30 ∧
    ({ duration := 30, resolution := "1920x1080", aspectRatio := "16:9", fileSize := 32,
       generated := true, fallback := true, note := mockVideoNote } : MockMetadata).resolution =
      "1920x1080" :=
  ⟨fallback_prompt_independence.1 ⟨FfmpegOutcome.unavailable, true⟩ "alpha" "beta" "o.mp4" 30,
   (fallback_prompt_independence.2 ⟨FfmpegOutcome.unavailable, true⟩ "o.mp4" 30 _
      (by decide)).1⟩
